import Mathlib

/-!
Shallow embedding of the BaseGuardian reputation ledger
(src/contracts/BaseGuardian.sol, Solidity ^0.8.19).

Modelling conventions:
* Addresses are `Nat` (0 is the zero address); `mapping` fields are total
  functions with Solidity's zero-value defaults.
* `uint256` values are `Nat`.  Solidity 0.8 checked subtraction and division
  are modelled exactly (`checkedSub`, `checkedDiv` return `none` where the
  EVM would revert); checked addition is modelled as plain `Nat` addition,
  since an additive overflow needs a value of order 2^256, which no state
  reachable by the claims under study approaches.
* A reverting call is `none`: the caller keeps the pre-call state, which is
  Solidity's all-or-nothing transaction semantics.
* The `keccak256(abi.encodePacked(...))` report id is modelled by an
  injective pairing (`mkReportId`) of the same five-tuple; collision
  freeness of the hash is assumed.
* `nonReentrant` and gas are not modelled: every operation is a single
  atomic transition, which is what the guard enforces.
-/

namespace BaseGuardian

/-- The six threat kinds, ordinal-significant (HONEYPOT = 0 ...
MALICIOUS_CONTRACT = 5), from `enum ThreatType`. -/
inductive ThreatType where
  | HONEYPOT
  | RUGPULL
  | MEV_VULNERABILITY
  | SANDWICH_RISK
  | PHISHING
  | MALICIOUS_CONTRACT
deriving DecidableEq, Repr

/-- Ordinal of a threat type, matching the Solidity enum encoding. -/
def ThreatType.toNat : ThreatType → Nat
  | .HONEYPOT => 0
  | .RUGPULL => 1
  | .MEV_VULNERABILITY => 2
  | .SANDWICH_RISK => 3
  | .PHISHING => 4
  | .MALICIOUS_CONTRACT => 5

/-- `ThreatType(i)` casts for loop indices 0..5 (only used below 6). -/
def ThreatType.ofIdx : Nat → ThreatType
  | 0 => .HONEYPOT
  | 1 => .RUGPULL
  | 2 => .MEV_VULNERABILITY
  | 3 => .SANDWICH_RISK
  | 4 => .PHISHING
  | _ => .MALICIOUS_CONTRACT

/-- `enum RiskLevel`: SAFE = 0, RISKY = 1, DANGEROUS = 2. -/
inductive RiskLevel where
  | SAFE
  | RISKY
  | DANGEROUS
deriving DecidableEq, Repr

/-- `struct ThreatReport`. -/
structure ThreatReport where
  reporter : Nat
  threatType : ThreatType
  riskScore : Nat
  evidence : String
  timestamp : Nat
  validated : Bool
  validationCount : Nat
deriving DecidableEq, Repr

/-- Solidity zero-value for a `ThreatReport` slot (unset mapping entry). -/
def emptyReport : ThreatReport :=
  { reporter := 0, threatType := .HONEYPOT, riskScore := 0, evidence := ""
    timestamp := 0, validated := false, validationCount := 0 }

/-- `struct ContractReputation` (the nested `mapping(ThreatType => uint256)`
is a total function). -/
structure ContractReputation where
  totalScore : Nat
  reportCount : Nat
  validationScore : Nat
  isVerified : Bool
  lastUpdated : Nat
  threatCounts : ThreatType → Nat

/-- Solidity zero-value for a `ContractReputation` slot. -/
def emptyReputation : ContractReputation :=
  { totalScore := 0, reportCount := 0, validationScore := 0
    isVerified := false, lastUpdated := 0, threatCounts := fun _ => 0 }

/-- `struct SecurityMetrics`. -/
structure SecurityMetrics where
  totalContracts : Nat
  flaggedContracts : Nat
  validatedReports : Nat
  falsePositives : Nat
deriving DecidableEq, Repr

/-- The whole contract storage, plus the contract's ether balance. -/
structure GuardianState where
  owner : Nat
  contractReputations : Nat → ContractReputation
  threatReports : Nat → ThreatReport
  validators : Nat → Bool
  reporterScores : Nat → Nat
  metrics : SecurityMetrics
  reportIdCounter : Nat
  reportFee : Nat
  validationReward : Nat
  balance : Nat

/-- Point update of a `Nat`-keyed mapping. -/
def upd {α : Type} (f : Nat → α) (k : Nat) (v : α) : Nat → α :=
  fun x => if x = k then v else f x

/-- Point update of the per-threat-type counter mapping. -/
def updT (f : ThreatType → Nat) (k : ThreatType) (v : Nat) : ThreatType → Nat :=
  fun x => if x = k then v else f x

/-- `uint256 public constant MAX_RISK_SCORE = 100`. -/
def MAX_RISK_SCORE : Nat := 100

/-- Checked `uint256` subtraction: reverts (`none`) on underflow, exactly as
Solidity 0.8. -/
def checkedSub (a b : Nat) : Option Nat :=
  if b ≤ a then some (a - b) else none

/-- Checked `uint256` division: reverts (`none`) on a zero divisor, exactly
as Solidity. -/
def checkedDiv (a b : Nat) : Option Nat :=
  if b = 0 then none else some (a / b)

/-- Constructor: deployer becomes owner and validator with reporter score
100; `reportFee = 0.001 ether`, `validationReward = 0.0005 ether` (wei). -/
def initialState (deployer : Nat) : GuardianState :=
  { owner := deployer
    contractReputations := fun _ => emptyReputation
    threatReports := fun _ => emptyReport
    validators := upd (fun _ => false) deployer true
    reporterScores := upd (fun _ => 0) deployer 100
    metrics := { totalContracts := 0, flaggedContracts := 0
                 validatedReports := 0, falsePositives := 0 }
    reportIdCounter := 0
    reportFee := 1000000000000000
    validationReward := 500000000000000
    balance := 0 }

/-- `_isAlreadyFlagged`: recomputes the average of the reputation it is
given (a storage reference, so the CURRENT state at call time) and compares
it with 70.  The division reverts when `reportCount = 0`. -/
def _isAlreadyFlagged (rep : ContractReputation) : Option Bool :=
  (checkedDiv rep.totalScore rep.reportCount).map (fun q => decide (70 < q))

/-- `_updateReporterScore`: `+1` capped below 100 on a positive signal;
`-5` guarded only by `score > 0` on a negative one, so the checked
subtraction reverts when the score is 1..4. -/
def _updateReporterScore (scores : Nat → Nat) (reporter : Nat)
    (positive : Bool) : Option (Nat → Nat) :=
  if positive then
    if scores reporter < 100 then
      some (upd scores reporter (scores reporter + 1))
    else
      some scores
  else
    if 0 < scores reporter then
      (checkedSub (scores reporter) 5).map (fun s => upd scores reporter s)
    else
      some scores

/-- `_updateContractReputation`: bumps `totalContracts` on a first report,
folds the new report into the target's reputation, then recomputes the
average and bumps `flaggedContracts` when `avgScore > 70 &&
!_isAlreadyFlagged(target)` — with `_isAlreadyFlagged` reading the already
updated reputation, as the storage reference in the source does.  The `&&`
is short-circuit: `_isAlreadyFlagged` only runs when `avgScore > 70`. -/
def _updateContractReputation (rep : ContractReputation)
    (m : SecurityMetrics) (ttype : ThreatType) (riskScore ts : Nat) :
    Option (ContractReputation × SecurityMetrics) :=
  let m1 := if rep.reportCount = 0 then
              { m with totalContracts := m.totalContracts + 1 }
            else m
  let rep1 : ContractReputation :=
    { rep with
      totalScore := rep.totalScore + riskScore
      reportCount := rep.reportCount + 1
      threatCounts := updT rep.threatCounts ttype (rep.threatCounts ttype + 1)
      lastUpdated := ts }
  match checkedDiv rep1.totalScore rep1.reportCount with
  | none => none
  | some avgScore =>
    match (if decide (70 < avgScore) then _isAlreadyFlagged rep1
           else some false) with
    | none => none
    | some already =>
      let m2 := if decide (70 < avgScore) && !already then
                  { m1 with flaggedContracts := m1.flaggedContracts + 1 }
                else m1
      some (rep1, m2)

/-- Report id derivation: the source hashes
`(msg.sender, target, threatType, block.timestamp, reportIdCounter++)`;
modelled as an injective pairing of the same tuple. -/
def mkReportId (sender target ttype ts ctr : Nat) : Nat :=
  Nat.pair sender (Nat.pair target (Nat.pair ttype (Nat.pair ts ctr)))

/-- Call arguments of `reportThreat`, including the transaction context
(`msg.sender`, `msg.value`, `block.timestamp`). -/
structure ReportArgs where
  sender : Nat
  value : Nat
  target : Nat
  threatType : ThreatType
  riskScore : Nat
  evidence : String
  timestamp : Nat
deriving DecidableEq, Repr

/-- `reportThreat`: the `validRiskScore` modifier, then the three
`require`s, then store the report, update the target's reputation and the
reporter's score.  The attached value joins the contract balance on
success. -/
def reportThreat (a : ReportArgs) (st : GuardianState) :
    Option GuardianState :=
  if MAX_RISK_SCORE < a.riskScore then none
  else if a.value < st.reportFee then none
  else if a.target = 0 then none
  else if a.evidence.length = 0 then none
  else
    let reportId := mkReportId a.sender a.target a.threatType.toNat
      a.timestamp st.reportIdCounter
    let newReport : ThreatReport :=
      { reporter := a.sender, threatType := a.threatType
        riskScore := a.riskScore, evidence := a.evidence
        timestamp := a.timestamp, validated := false, validationCount := 0 }
    let st1 := { st with
      reportIdCounter := st.reportIdCounter + 1
      threatReports := upd st.threatReports reportId newReport }
    match _updateContractReputation (st1.contractReputations a.target)
        st1.metrics a.threatType a.riskScore a.timestamp with
    | none => none
    | some (rep1, m1) =>
      match _updateReporterScore st1.reporterScores a.sender true with
      | none => none
      | some scores1 =>
        some { st1 with
          contractReputations := upd st1.contractReputations a.target rep1
          metrics := m1
          reporterScores := scores1
          balance := st1.balance + a.value }

/-- Call arguments of `validateReport`. -/
structure ValidateArgs where
  sender : Nat
  reportId : Nat
  isValid : Bool
deriving DecidableEq, Repr

/-- `validateReport`: `onlyValidator`, existence and not-yet-validated
checks; marks the report validated, bumps the matching metric and adjusts
the original reporter's score; finally pays the validation reward if the
balance covers it (non-fatal otherwise). -/
def validateReport (a : ValidateArgs) (st : GuardianState) :
    Option GuardianState :=
  if st.validators a.sender = false then none
  else
    let report := st.threatReports a.reportId
    if report.reporter = 0 then none
    else if report.validated then none
    else
      let report1 := { report with
        validated := true, validationCount := report.validationCount + 1 }
      let st1 := { st with
        threatReports := upd st.threatReports a.reportId report1 }
      let afterScore : Option GuardianState :=
        if a.isValid then
          (_updateReporterScore st1.reporterScores report.reporter true).map
            (fun sc => { st1 with
              metrics := { st1.metrics with
                validatedReports := st1.metrics.validatedReports + 1 }
              reporterScores := sc })
        else
          (_updateReporterScore st1.reporterScores report.reporter false).map
            (fun sc => { st1 with
              metrics := { st1.metrics with
                falsePositives := st1.metrics.falsePositives + 1 }
              reporterScores := sc })
      afterScore.map (fun st2 =>
        if st2.validationReward ≤ st2.balance then
          { st2 with balance := st2.balance - st2.validationReward }
        else st2)

/-- `addValidator` (owner only): also resets the new validator's reporter
score to 100. -/
def addValidator (sender v : Nat) (st : GuardianState) :
    Option GuardianState :=
  if sender ≠ st.owner then none
  else if v = 0 then none
  else if st.validators v then none
  else
    some { st with
      validators := upd st.validators v true
      reporterScores := upd st.reporterScores v 100 }

/-- `removeValidator` (owner only). -/
def removeValidator (sender v : Nat) (st : GuardianState) :
    Option GuardianState :=
  if sender ≠ st.owner then none
  else if st.validators v = false then none
  else some { st with validators := upd st.validators v false }

/-- `updateFees` (owner only): unconditional overwrite. -/
def updateFees (sender f r : Nat) (st : GuardianState) :
    Option GuardianState :=
  if sender ≠ st.owner then none
  else some { st with reportFee := f, validationReward := r }

/-- `emergencyWithdraw` (owner only): drains the whole balance. -/
def emergencyWithdraw (sender : Nat) (st : GuardianState) :
    Option GuardianState :=
  if sender ≠ st.owner then none
  else some { st with balance := 0 }

/-- `transferOwnership` from the inherited `Ownable` (owner only,
non-zero new owner). -/
def transferOwnership (sender newOwner : Nat) (st : GuardianState) :
    Option GuardianState :=
  if sender ≠ st.owner then none
  else if newOwner = 0 then none
  else some { st with owner := newOwner }

/-- `receive()`: plain ether deposit. -/
def receiveEther (v : Nat) (st : GuardianState) : Option GuardianState :=
  some { st with balance := st.balance + v }

/-- The enumeration in ordinal order, i.e. `ThreatType(i)` for
`i = 0..5`. -/
def allThreats : List ThreatType :=
  [.HONEYPOT, .RUGPULL, .MEV_VULNERABILITY, .SANDWICH_RISK, .PHISHING,
   .MALICIOUS_CONTRACT]

/-- The source's second loop in `_getReportedThreats`, appending
`ThreatType(i)` for each `i < n` whose counter is non-zero, in increasing
`i`. -/
def threatsUpTo (rep : ContractReputation) : Nat → List ThreatType
  | 0 => []
  | n + 1 =>
    threatsUpTo rep n ++
      (if 0 < rep.threatCounts (ThreatType.ofIdx n) then
        [ThreatType.ofIdx n] else [])

/-- `_getReportedThreats`: the threat types with at least one report, built
by the `i = 0..5` loop. -/
def _getReportedThreats (rep : ContractReputation) : List ThreatType :=
  threatsUpTo rep 6

/-- Return record of `getRiskAnalysis`. -/
structure RiskAnalysis where
  riskLevel : RiskLevel
  riskScore : Nat
  reportCount : Nat
  threatTypes : List ThreatType
deriving DecidableEq, Repr

/-- `getRiskAnalysis` (view): average score (0 with no reports), banded
risk level, report count and reported threat kinds. -/
def getRiskAnalysis (st : GuardianState) (addr : Nat) : RiskAnalysis :=
  let rep := st.contractReputations addr
  let reportCount := rep.reportCount
  let riskScore := if 0 < reportCount then rep.totalScore / reportCount else 0
  let riskLevel :=
    if riskScore ≤ 30 then RiskLevel.SAFE
    else if riskScore ≤ 70 then RiskLevel.RISKY
    else RiskLevel.DANGEROUS
  { riskLevel := riskLevel, riskScore := riskScore
    reportCount := reportCount, threatTypes := _getReportedThreats rep }

/-- `isHighRiskContract` (view): the same average, flagged iff it exceeds
70. -/
def isHighRiskContract (st : GuardianState) (addr : Nat) : Bool × Nat :=
  let rep := st.contractReputations addr
  let riskScore :=
    if 0 < rep.reportCount then rep.totalScore / rep.reportCount else 0
  (decide (70 < riskScore), riskScore)

/-- `getSecurityMetrics` (view). -/
def getSecurityMetrics (st : GuardianState) : SecurityMetrics :=
  st.metrics

/-- Every externally callable mutating operation of the contract. -/
inductive Op where
  | report (a : ReportArgs)
  | validate (a : ValidateArgs)
  | addVal (sender v : Nat)
  | removeVal (sender v : Nat)
  | fees (sender f r : Nat)
  | withdraw (sender : Nat)
  | transferOwner (sender newOwner : Nat)
  | deposit (v : Nat)

/-- One transaction against the ledger; `none` is a revert, leaving the
caller with the pre-state. -/
def step : Op → GuardianState → Option GuardianState
  | .report a, st => reportThreat a st
  | .validate a, st => validateReport a st
  | .addVal s v, st => addValidator s v st
  | .removeVal s v, st => removeValidator s v st
  | .fees s f r, st => updateFees s f r st
  | .withdraw s, st => emergencyWithdraw s st
  | .transferOwner s n, st => transferOwnership s n st
  | .deposit v, st => receiveEther v st

/-- The state a successful `reportThreat` produces, spelled out. -/
def reportResult (a : ReportArgs) (st : GuardianState) : GuardianState :=
  let reportId := mkReportId a.sender a.target a.threatType.toNat
    a.timestamp st.reportIdCounter
  let newReport : ThreatReport :=
    { reporter := a.sender, threatType := a.threatType
      riskScore := a.riskScore, evidence := a.evidence
      timestamp := a.timestamp, validated := false, validationCount := 0 }
  let rep := st.contractReputations a.target
  { st with
    reportIdCounter := st.reportIdCounter + 1
    threatReports := upd st.threatReports reportId newReport
    contractReputations := upd st.contractReputations a.target
      { rep with
        totalScore := rep.totalScore + a.riskScore
        reportCount := rep.reportCount + 1
        threatCounts := updT rep.threatCounts a.threatType
          (rep.threatCounts a.threatType + 1)
        lastUpdated := a.timestamp }
    metrics := if rep.reportCount = 0 then
                 { st.metrics with
                   totalContracts := st.metrics.totalContracts + 1 }
               else st.metrics
    reporterScores := if st.reporterScores a.sender < 100 then
                        upd st.reporterScores a.sender
                          (st.reporterScores a.sender + 1)
                      else st.reporterScores
    balance := st.balance + a.value }

/-- The concrete first report used by counterexamples and witnesses: sender
2, fee exactly `reportFee`, target 3, HONEYPOT, score 85 — the spec's own
scenario.  The deployer/owner is address 1. -/
def demoReport : ReportArgs :=
  { sender := 2, value := 1000000000000000, target := 3
    threatType := .HONEYPOT, riskScore := 85, evidence := "ipfs-evidence"
    timestamp := 0 }

/-- The id the demo report is stored under. -/
def demoId : Nat := mkReportId 2 3 0 0 0

/-- The ledger right after the demo report (deployer 1, one report). -/
def stAfterReport : GuardianState := reportResult demoReport (initialState 1)

/-- The reporter-score invariant: every identity's score is at most 100. -/
def ScoreInv (st : GuardianState) : Prop :=
  ∀ a : Nat, st.reporterScores a ≤ 100

/-!  Characterization lemmas. -/

/-- `_updateContractReputation` always succeeds, and — because
`_isAlreadyFlagged` re-derives the crossing status from the already updated
reputation — the `flaggedContracts` branch is unreachable: the metrics can
only change in `totalContracts`. -/
theorem _updateContractReputation_eq (rep : ContractReputation)
    (m : SecurityMetrics) (t : ThreatType) (s ts : Nat) :
    _updateContractReputation rep m t s ts =
      some
        ({ rep with
            totalScore := rep.totalScore + s
            reportCount := rep.reportCount + 1
            threatCounts := updT rep.threatCounts t (rep.threatCounts t + 1)
            lastUpdated := ts },
          if rep.reportCount = 0 then
            { m with totalContracts := m.totalContracts + 1 }
          else m) := by
  unfold _updateContractReputation _isAlreadyFlagged checkedDiv
  simp
  split_ifs with h <;> simp [h]

/-- The positive branch of `_updateReporterScore` never reverts. -/
theorem _updateReporterScore_pos (scores : Nat → Nat) (r : Nat) :
    _updateReporterScore scores r true =
      some (if scores r < 100 then
              upd scores r (scores r + 1)
            else scores) := by
  unfold _updateReporterScore
  rw [if_pos rfl]
  split_ifs with h <;> rfl

/-- Master equation for `reportThreat`: it succeeds exactly under the four
preconditions and then produces `reportResult`. -/
theorem reportThreat_eq (a : ReportArgs) (st : GuardianState) :
    reportThreat a st =
      if a.riskScore ≤ MAX_RISK_SCORE ∧ st.reportFee ≤ a.value ∧
          a.target ≠ 0 ∧ a.evidence.length ≠ 0 then
        some (reportResult a st)
      else none := by
  by_cases h1 : MAX_RISK_SCORE < a.riskScore
  · simp [reportThreat, h1, not_le.mpr h1]
  · by_cases h2 : a.value < st.reportFee
    · simp [reportThreat, h1, h2, not_le.mpr h2, not_lt.mp h1]
    · by_cases h3 : a.target = 0
      · simp [reportThreat, h1, h2, h3, not_lt.mp h1, not_lt.mp h2]
      · by_cases h4 : a.evidence.length = 0
        · simp [reportThreat, h1, h2, h3, h4, not_lt.mp h1, not_lt.mp h2]
        · simp [reportThreat, reportResult, h1, h2, h3, h4, not_lt.mp h1,
            not_lt.mp h2, _updateContractReputation_eq,
            _updateReporterScore_pos]

/-- The demo report really is accepted and produces `stAfterReport`. -/
theorem reportThreat_demo :
    reportThreat demoReport (initialState 1) = some stAfterReport := by
  rw [reportThreat_eq]
  exact if_pos (by decide)

/-- C1: the claim says `flaggedContracts` is incremented exactly once per
target, on the first report that pushes the average above 70.  The code can
never increment it: the guard re-derives the crossing state from the
already updated average, so `avgScore > 70 && !_isAlreadyFlagged(target)`
is identically false and every successful `reportThreat` leaves
`flaggedContracts` unchanged — contradicting the spec and the repository's
own test, which expect `flaggedContracts = 1` after a first report with
score 85. -/
theorem claim1_flaggedContracts_never_incremented (a : ReportArgs)
    (st st' : GuardianState) (h : reportThreat a st = some st') :
    st'.metrics.flaggedContracts = st.metrics.flaggedContracts := by
  rw [reportThreat_eq] at h
  split_ifs at h with hc
  · obtain rfl := Option.some.inj h
    show (reportResult a st).metrics.flaggedContracts = _
    unfold reportResult
    dsimp only
    split <;> rfl

/-- Witness for C1 at the spec's own scenario: the first report with score
85 against a fresh target leaves `flaggedContracts` at 0 (the claim and the
repository's test expect 1). -/
theorem claim1_flaggedContracts_never_incremented_witness :
    stAfterReport.metrics.flaggedContracts =
      (initialState 1).metrics.flaggedContracts :=
  claim1_flaggedContracts_never_incremented demoReport (initialState 1)
    stAfterReport reportThreat_demo

/-- C2: the claim says a negative validation outcome floors the reporter
score at 0 and always succeeds.  In the code the penalty is a checked
`-= 5` guarded only by `score > 0`, so with the spec's own scenario (fresh
reporter at score 1 after one report) the subtraction underflows and the
whole `validateReport` call reverts instead of setting the score to
`max(1 - 5, 0) = 0`. -/
theorem claim2_invalid_validation_underflows :
    stAfterReport.reporterScores 2 = 1 ∧
    validateReport { sender := 1, reportId := demoId, isValid := false }
      stAfterReport = none :=
  ⟨rfl, rfl⟩

/-- C3: the claim says `validateReport` rejects exactly when the caller is
not a validator, the report id is unknown, or the report is already
validated.  Here none of the three conditions holds — the owner is a
validator, the demo report exists and is not yet validated — and the call
still reverts (the reporter-score underflow of C2), so the three conditions
are not exhaustive and the negative adjustment is never applied. -/
theorem claim3_rejections_not_exhaustive :
    stAfterReport.validators 1 = true ∧
    (stAfterReport.threatReports demoId).reporter ≠ 0 ∧
    (stAfterReport.threatReports demoId).validated = false ∧
    validateReport { sender := 1, reportId := demoId, isValid := false }
      stAfterReport = none :=
  ⟨rfl, by decide, rfl, rfl⟩

/-- C4: `reportThreat` rejects exactly when the fee is short, the target is
the zero address, the risk score exceeds 100 (`MAX_RISK_SCORE`), or the
evidence is empty; in particular score 101 is rejected and score 100
accepted.  A rejection is `none`: the caller keeps the pre-call state, so
no partial update is observable (Solidity revert semantics). -/
theorem claim4_reportThreat_rejects_iff (a : ReportArgs)
    (st : GuardianState) :
    reportThreat a st = none ↔
      (a.value < st.reportFee ∨ a.target = 0 ∨
        MAX_RISK_SCORE < a.riskScore ∨ a.evidence.length = 0) := by
  rw [reportThreat_eq]
  split_ifs with hc
  · exact iff_of_false (by simp) (by omega)
  · exact iff_of_true rfl (by omega)

/-- C5: `getRiskAnalysis` returns the integer average
`totalScore / reportCount` (0 with no reports) and classifies it with
inclusive-low bands: `≤ 30` SAFE, `31..70` RISKY, `> 70` DANGEROUS — so
average 30 is SAFE, 31 and 70 are RISKY, 71 is DANGEROUS. -/
theorem claim5_risk_bands (st : GuardianState) (addr : Nat) :
    (getRiskAnalysis st addr).riskScore =
      (if 0 < (st.contractReputations addr).reportCount then
        (st.contractReputations addr).totalScore /
          (st.contractReputations addr).reportCount
      else 0) ∧
    ((getRiskAnalysis st addr).riskLevel = RiskLevel.SAFE ↔
      (getRiskAnalysis st addr).riskScore ≤ 30) ∧
    ((getRiskAnalysis st addr).riskLevel = RiskLevel.RISKY ↔
      31 ≤ (getRiskAnalysis st addr).riskScore ∧
        (getRiskAnalysis st addr).riskScore ≤ 70) ∧
    ((getRiskAnalysis st addr).riskLevel = RiskLevel.DANGEROUS ↔
      70 < (getRiskAnalysis st addr).riskScore) := by
  unfold getRiskAnalysis
  dsimp only
  refine ⟨rfl, ?_, ?_, ?_⟩ <;> split_ifs with h1 h2 <;> simp <;> omega

/-- C6: `isHighRiskContract` computes the same average as
`getRiskAnalysis` and its boolean is true exactly when that average
exceeds 70, i.e. exactly when `getRiskAnalysis` classifies the target
DANGEROUS. -/
theorem claim6_isHighRisk_consistent (st : GuardianState) (addr : Nat) :
    (isHighRiskContract st addr).2 = (getRiskAnalysis st addr).riskScore ∧
    ((isHighRiskContract st addr).1 = true ↔
      70 < (getRiskAnalysis st addr).riskScore) ∧
    ((isHighRiskContract st addr).1 = true ↔
      (getRiskAnalysis st addr).riskLevel = RiskLevel.DANGEROUS) := by
  unfold isHighRiskContract getRiskAnalysis
  dsimp only
  refine ⟨rfl, by simp, ?_⟩
  split_ifs with h1 h2 <;> simp <;> omega

/-- C7: a successful `reportThreat` bumps the target's `reportCount` by
exactly 1, adds exactly `riskScore` to its `totalScore`, bumps the matching
threat-type counter by exactly 1, and bumps `totalContracts` by 1 exactly
when the target had no prior reports. -/
theorem claim7_report_updates_reputation (a : ReportArgs)
    (st st' : GuardianState) (h : reportThreat a st = some st') :
    (st'.contractReputations a.target).reportCount =
      (st.contractReputations a.target).reportCount + 1 ∧
    (st'.contractReputations a.target).totalScore =
      (st.contractReputations a.target).totalScore + a.riskScore ∧
    (st'.contractReputations a.target).threatCounts a.threatType =
      (st.contractReputations a.target).threatCounts a.threatType + 1 ∧
    st'.metrics.totalContracts =
      (if (st.contractReputations a.target).reportCount = 0 then
        st.metrics.totalContracts + 1
      else st.metrics.totalContracts) := by
  rw [reportThreat_eq] at h
  split_ifs at h with hc
  obtain rfl := Option.some.inj h
  unfold reportResult
  dsimp only
  simp [upd, updT]
  split_ifs <;> rfl

/-- Witness for C7: the demo report (first report against target 3) yields
report count 1, total score 85, HONEYPOT counter 1, and bumps
`totalContracts`. -/
theorem claim7_report_updates_reputation_witness :
    (stAfterReport.contractReputations 3).reportCount =
      ((initialState 1).contractReputations 3).reportCount + 1 ∧
    (stAfterReport.contractReputations 3).totalScore =
      ((initialState 1).contractReputations 3).totalScore + 85 ∧
    (stAfterReport.contractReputations 3).threatCounts .HONEYPOT =
      ((initialState 1).contractReputations 3).threatCounts .HONEYPOT + 1 ∧
    stAfterReport.metrics.totalContracts =
      (if ((initialState 1).contractReputations 3).reportCount = 0 then
        (initialState 1).metrics.totalContracts + 1
      else (initialState 1).metrics.totalContracts) :=
  claim7_report_updates_reputation demoReport (initialState 1) stAfterReport
    reportThreat_demo

/-- Every threat type is in the ordinal enumeration list. -/
theorem mem_allThreats (t : ThreatType) : t ∈ allThreats := by
  cases t <;> simp [allThreats]

/-- `_getReportedThreats` is the ordinal-order filter of the enumeration by
a non-zero per-type counter. -/
theorem _getReportedThreats_eq_filter (rep : ContractReputation) :
    _getReportedThreats rep =
      allThreats.filter (fun t => decide (0 < rep.threatCounts t)) := by
  unfold _getReportedThreats allThreats
  show threatsUpTo rep 6 = _
  simp only [threatsUpTo, ThreatType.ofIdx, List.filter]
  split_ifs <;> simp_all

/-- C8: the `threatTypes` component of `getRiskAnalysis` is exactly the
subset of the six enumerated threat types with at least one report against
the target, listed in enumeration-ordinal order (it is the ordinal-order
enumeration filtered by a non-zero counter), not in insertion order. -/
theorem claim8_threatTypes_enum_order (st : GuardianState) (addr : Nat) :
    (getRiskAnalysis st addr).threatTypes =
      allThreats.filter
        (fun t => decide (0 < (st.contractReputations addr).threatCounts t)) ∧
    ∀ t : ThreatType,
      t ∈ (getRiskAnalysis st addr).threatTypes ↔
        0 < (st.contractReputations addr).threatCounts t := by
  refine ⟨_getReportedThreats_eq_filter _, fun t => ?_⟩
  rw [show (getRiskAnalysis st addr).threatTypes =
    _getReportedThreats (st.contractReputations addr) from rfl,
    _getReportedThreats_eq_filter]
  simp [List.mem_filter, mem_allThreats]

/-- C9: the division `totalScore / reportCount` inside `_isAlreadyFlagged`
(and the `avgScore` recomputation before it) is reached in
`_updateContractReputation` only after `reportCount` has been incremented,
so the divisor is at least 1 and the division-by-zero revert is
unreachable: the whole update always succeeds. -/
theorem claim9_no_division_by_zero (rep : ContractReputation)
    (m : SecurityMetrics) (t : ThreatType) (s ts : Nat) :
    (_updateContractReputation rep m t s ts).isSome = true := by
  rw [_updateContractReputation_eq]
  rfl

/-- A point update keeps the 100 bound when the written value obeys it. -/
theorem upd_le_100 {f : Nat → Nat} (hf : ∀ a, f a ≤ 100) {k v : Nat}
    (hv : v ≤ 100) : ∀ a, upd f k v a ≤ 100 := by
  intro a
  unfold upd
  split
  · exact hv
  · exact hf a

/-- Both score adjustments preserve the 100 bound whenever they succeed:
`+1` is guarded by `< 100` and `-5` cannot increase the score. -/
theorem _updateReporterScore_le {f f' : Nat → Nat} {r : Nat} {pos : Bool}
    (h : _updateReporterScore f r pos = some f') (hf : ∀ a, f a ≤ 100) :
    ∀ a, f' a ≤ 100 := by
  unfold _updateReporterScore checkedSub at h
  cases pos
  · rw [if_neg (by simp)] at h
    split_ifs at h with h1 h2
    · simp only [Option.map_some', Option.some.injEq] at h
      obtain rfl := h
      exact upd_le_100 hf (le_trans (Nat.sub_le _ _) (hf r))
    · simp at h
    · obtain rfl := Option.some.inj h
      exact hf
  · rw [if_pos rfl] at h
    split_ifs at h with h1
    · obtain rfl := Option.some.inj h
      exact upd_le_100 hf (by have := hf r; omega)
    · obtain rfl := Option.some.inj h
      exact hf

/-- A successful `validateReport` preserves the score bound: the only
change to `reporterScores` goes through `_updateReporterScore`. -/
theorem validateReport_ScoreInv {a : ValidateArgs} {st st' : GuardianState}
    (h : validateReport a st = some st') (hf : ScoreInv st) : ScoreInv st' := by
  unfold validateReport at h
  dsimp only at h
  split_ifs at h with h1 h2 h3 h4
  · rcases Option.map_eq_some'.mp h with ⟨st2, hst2, rfl⟩
    rcases Option.map_eq_some'.mp hst2 with ⟨sc, hsc, rfl⟩
    have hs := _updateReporterScore_le hsc hf
    intro x
    dsimp only
    split
    · exact hs x
    · exact hs x
  · rcases Option.map_eq_some'.mp h with ⟨st2, hst2, rfl⟩
    rcases Option.map_eq_some'.mp hst2 with ⟨sc, hsc, rfl⟩
    have hs := _updateReporterScore_le hsc hf
    intro x
    dsimp only
    split
    · exact hs x
    · exact hs x

/-- C10: the invariant `reporterScore ≤ 100` holds for every identity at
deployment (the constructor gives the deployer exactly 100 and everyone
else 0) and is preserved by every contract operation: `addValidator`
writes exactly 100, the positive adjustment only adds 1 below 100, the
negative adjustment never increases a score, and no other operation
touches the scores. -/
theorem claim10_reporter_score_bounded :
    (∀ d : Nat, ScoreInv (initialState d)) ∧
    (∀ (op : Op) (st st' : GuardianState),
      step op st = some st' → ScoreInv st → ScoreInv st') := by
  constructor
  · intro d x
    show upd (fun _ => 0) d 100 x ≤ 100
    unfold upd
    split <;> simp
  · rintro op st st' h hf
    cases op with
    | report a =>
        replace h : reportThreat a st = some st' := h
        rw [reportThreat_eq] at h
        split_ifs at h with hc
        obtain rfl := Option.some.inj h
        intro x
        show (reportResult a st).reporterScores x ≤ 100
        unfold reportResult
        dsimp only
        split_ifs with hlt
        · exact upd_le_100 hf (by have := hf a.sender; omega) x
        · exact hf x
    | validate a => exact validateReport_ScoreInv h hf
    | addVal s v =>
        replace h : addValidator s v st = some st' := h
        unfold addValidator at h
        split_ifs at h
        obtain rfl := Option.some.inj h
        exact upd_le_100 hf (by omega)
    | removeVal s v =>
        replace h : removeValidator s v st = some st' := h
        unfold removeValidator at h
        split_ifs at h
        obtain rfl := Option.some.inj h
        exact hf
    | fees s f r =>
        replace h : updateFees s f r st = some st' := h
        unfold updateFees at h
        split_ifs at h
        obtain rfl := Option.some.inj h
        exact hf
    | withdraw s =>
        replace h : emergencyWithdraw s st = some st' := h
        unfold emergencyWithdraw at h
        split_ifs at h
        obtain rfl := Option.some.inj h
        exact hf
    | transferOwner s n =>
        replace h : transferOwnership s n st = some st' := h
        unfold transferOwnership at h
        split_ifs at h
        obtain rfl := Option.some.inj h
        exact hf
    | deposit v =>
        replace h : receiveEther v st = some st' := h
        unfold receiveEther at h
        obtain rfl := Option.some.inj h
        exact hf

/-- Witness for C10: the invariant holds at deployment with deployer 1,
and is carried across a concrete `updateFees` transaction. -/
theorem claim10_reporter_score_bounded_witness :
    ScoreInv { initialState 1 with reportFee := 5, validationReward := 7 } :=
  claim10_reporter_score_bounded.2 (Op.fees 1 5 7) (initialState 1)
    { initialState 1 with reportFee := 5, validationReward := 7 } rfl
    (claim10_reporter_score_bounded.1 1)

end BaseGuardian
